import Mathlib

/-!
Verification development for the Chatwoot integration layer of wuzapi
(src/chatwoot.go, src/clients.go, and the sibling revisions of the same
logic shipped in the repository). The Go functions are shallowly embedded
as pure Lean functions; outbound HTTP responses are supplied by an oracle
(`CwWorld`) and the HTTP requests the code would issue are collected in a
trace (`List CwRequest`).
-/

/-- `ChatwootConfig` (src/chatwoot.go:20-44). -/
structure ChatwootConfig where
  enabled : Bool
  url : String
  accountID : String
  token : String
  inboxID : String
  signMessages : Bool
  signatureDelimiter : String
  reopenConversation : Bool
  conversationPending : Bool
  inboxName : String
  organization : String
  logoURL : String
  importContacts : Bool
  importMessages : Bool
  daysLimit : Int
  ignoreJIDs : List String
  deriving DecidableEq

/-- Go `strings.Replace(s, string(c), "", -1)` for a one-character pattern:
removes every occurrence of the character `c`. -/
def goStripChar (c : Char) (s : String) : String :=
  String.mk (s.data.filter (fun x => x != c))

/-- Go `strings.Split(s, "@")[0]`: the prefix of `s` before its first `'@'`
(the whole string when there is none). -/
def goFirstField (s : String) : String :=
  String.mk (s.data.takeWhile (fun x => x != '@'))

/-- Go `strings.TrimSpace`: drop leading and trailing whitespace. -/
def goTrimSpace (s : String) : String :=
  String.mk (((s.data.dropWhile Char.isWhitespace).reverse.dropWhile
    Char.isWhitespace).reverse)

/-- Go `strings.Contains(s, sub)`: `sub` occurs as a contiguous substring
of `s`. -/
def goContains (s sub : String) : Bool :=
  decide (sub.data <:+: s.data)

/-- Go `strconv.Atoi` with the error discarded (every caller in the source
ignores it), yielding 0 when the string is not an integer. -/
def goAtoi (s : String) : Int :=
  (s.toInt?).getD 0

/-- Go `strings.Replace(phone, "+", "%2B", -1)` (src/chatwoot.go:310):
URL-encode every plus sign. -/
def encodePlus (s : String) : String :=
  String.mk (s.data.flatMap (fun c => if c = '+' then ['%', '2', 'B'] else [c]))

/-- Go `strings.ReplaceAll(delimiter, "\x5cn", "\n")` (src/chatwoot.go:397):
interpret the literal two-character escape backslash-n as a newline,
scanning left to right without overlap. -/
def unescapeNewlines : List Char → List Char
  | [] => []
  | '\\' :: 'n' :: rest => '\n' :: unescapeNewlines rest
  | c :: rest => c :: unescapeNewlines rest

/-- Phone normalization on the inbound (chat to case-system) path
(src/chatwoot.go:298-300): remove every "+", cut at "@", prefix "+". -/
def toCasePhone (senderUser : String) : String :=
  "+" ++ goFirstField (goStripChar '+' senderUser)

/-- Recipient normalization on the webhook path (src/chatwoot.go:384-388):
prefer the contact phone, fall back to the source id, remove every "+",
remove every space, trim whitespace. -/
def normalizeRecipient (phoneNumber sourceID : String) : String :=
  goTrimSpace (goStripChar ' ' (goStripChar '+'
    (if phoneNumber = "" then sourceID else phoneNumber)))

/-- Outcome of one outbound HTTP call: transport error, or a status code
with a decoded body. -/
inductive HttpResult (α : Type) where
  | err : HttpResult α
  | ok (status : Nat) (body : α) : HttpResult α
  deriving DecidableEq

/-- Oracle for the case-system API: the response to the contact search
(decoded `payload` ids) and to the contact create (decoded contact id;
a decode failure leaves the Go zero value 0). -/
structure CwWorld where
  searchResult : HttpResult (List Nat)
  createResult : HttpResult Nat
  deriving DecidableEq

/-- The HTTP requests the embedded code issues against the case system. -/
inductive CwRequest where
  | search (q : String)
  | createContact (inboxId : Int) (name : String) (phoneNumber : String) (sourceId : String)
  | postConversation (inboxId : Int) (contactId : Nat) (content : String)
  | postAttachment (inboxId : String) (contactId : Nat) (caption : String) (fileName : String)
  deriving DecidableEq

/-- `getOrCreateContact` (src/chatwoot.go:309-339). Issues the search; on a
200 response with a non-empty payload returns its first id; otherwise
issues the create with `source_id = phone` and returns the decoded id on a
200 create response, 0 on transport error or any other status. Returns the
contact id together with the trace of issued requests. -/
def getOrCreateContact (w : CwWorld) (inboxID : Int) (phone name : String) :
    Nat × List CwRequest :=
  let q := encodePlus phone
  let hit : Option Nat :=
    match w.searchResult with
    | HttpResult.err => none
    | HttpResult.ok status payload =>
        if status = 200 ∧ payload.length > 0 then some (payload.headD 0) else none
  match hit with
  | some cid => (cid, [CwRequest.search q])
  | none =>
      let cid :=
        match w.createResult with
        | HttpResult.err => 0
        | HttpResult.ok status cid => if status = 200 then cid else 0
      (cid, [CwRequest.search q, CwRequest.createContact inboxID name phone phone])

/-- `SendToChatwoot` (src/chatwoot.go:288-307): config guard, phone
normalization, contact resolution, then the conversation post
(`sendConversation`, src/chatwoot.go:341-354) unless the contact id is 0.
The result is the trace of issued case-system requests. -/
def sendToChatwoot (w : CwWorld) (cfg : ChatwootConfig)
    (pushName senderUser text : String) : List CwRequest :=
  if cfg.enabled = false ∨ cfg.url = "" ∨ cfg.token = "" then []
  else
    let cwInboxID := goAtoi cfg.inboxID
    let phoneNumber := toCasePhone senderUser
    let r := getOrCreateContact w cwInboxID phoneNumber pushName
    if r.1 = 0 then r.2
    else r.2 ++ [CwRequest.postConversation cwInboxID r.1 text]

/-- `SendAttachmentToChatwoot` (src/unnamed/part_000:580-621): same guard
and contact resolution, then a multipart conversation post carrying the
attachment (the binary payload itself is elided from the trace). -/
def sendAttachmentToChatwoot (w : CwWorld) (cfg : ChatwootConfig)
    (pushName senderUser caption fileName : String) : List CwRequest :=
  if cfg.enabled = false ∨ cfg.url = "" ∨ cfg.token = "" then []
  else
    let cwInboxID := goAtoi cfg.inboxID
    let phoneNumber := toCasePhone senderUser
    let r := getOrCreateContact w cwInboxID phoneNumber pushName
    if r.1 = 0 then r.2
    else r.2 ++ [CwRequest.postAttachment cfg.inboxID r.1 caption fileName]

/-- The decoded webhook payload `CwWebhook` (src/chatwoot.go:125-140). -/
structure CwWebhook where
  event : String
  messageType : String
  content : String
  senderName : String
  contactPhoneNumber : String
  contactSourceID : String
  deriving DecidableEq

/-- One incoming webhook HTTP request: the `token` query parameter
(Go's `Query().Get` yields "" when absent) and the decoded body
(`none` when the JSON decode fails). -/
structure WebhookRequest where
  token : String
  body : Option CwWebhook
  deriving DecidableEq

/-- Session-registry and chat-client state consulted by the handler:
`userinfocache.Get(token)` hit, the `userInfo.(Values)` assertion, the
`GetWhatsmeowClient` nil check, and `client.IsConnected()`. -/
structure SessionState where
  sessionFound : Bool
  valsOk : Bool
  clientPresent : Bool
  clientConnected : Bool
  deriving DecidableEq

/-- Signature composition (src/chatwoot.go:392-399): when signing is on and
the agent name is non-empty, append the delimiter (defaulting to a newline
when empty, with the literal backslash-n escape interpreted) and the name. -/
def signCompose (cfg : ChatwootConfig) (content senderName : String) : String :=
  if cfg.signMessages = true ∧ senderName ≠ "" then
    let delimiter := cfg.signatureDelimiter
    let delimiter := if delimiter = "" then "\n" else delimiter
    let delimiter := String.mk (unescapeNewlines delimiter.data)
    content ++ delimiter ++ senderName
  else content

/-- The observable outcome of one webhook callback: the HTTP status written
and the chat-transport sends performed (recipient argument handed to
`parseJID`, final message text). -/
structure WebhookOutcome where
  status : Nat
  sends : List (String × String)
  deriving DecidableEq

/-- `HandleChatwootWebhook` (src/chatwoot.go:358-406): 401 on an empty
token; 200 with no send on a malformed body, a non-matching event or
message type, or an unknown session; otherwise 200, and the asynchronous
part sends the composed message when the client is present and connected
and the normalized recipient has at least 8 characters. -/
def handleChatwootWebhook (cfg : ChatwootConfig) (sess : SessionState)
    (req : WebhookRequest) : WebhookOutcome :=
  if req.token = "" then ⟨401, []⟩
  else
    match req.body with
    | none => ⟨200, []⟩
    | some payload =>
      if payload.event ≠ "message_created" ∨ payload.messageType ≠ "outgoing" then
        ⟨200, []⟩
      else if sess.sessionFound = false then ⟨200, []⟩
      else if sess.valsOk = true ∧ sess.clientPresent = true ∧ sess.clientConnected = true then
        if (normalizeRecipient payload.contactPhoneNumber payload.contactSourceID).length < 8 then
          ⟨200, []⟩
        else
          ⟨200, [(normalizeRecipient payload.contactPhoneNumber payload.contactSourceID,
                  signCompose cfg payload.content payload.senderName)]⟩
      else ⟨200, []⟩

/-- The recipient guard of the sibling revision (src/unnamed/part_002:855):
reject when `len(phone) > 20 || len(phone) < 8` — the branch whose comment
says a UUID-shaped or invalid number must abort. -/
def uuidGuardV2 (phone : String) : Bool :=
  phone.length > 20 || phone.length < 8

/-- Modelled from the spec: the repository's `parseJID` helper (called at
src/chatwoot.go:401) is not among the provided source files. Spec 4.2: strip
"+" and whitespace happen before this point; if the string already contains
the transport domain delimiter, parse it directly, otherwise append the
default transport domain suffix. -/
def parseJID (phone : String) : String :=
  if goContains phone "@" then phone else phone ++ "@s.whatsapp.net"

/-- `shouldIgnoreJID` (src/clients.go:65-75): true when some entry of the
configured ignore list occurs in the chat identity. -/
def shouldIgnoreJID (cfg : ChatwootConfig) (jid : String) : Bool :=
  cfg.ignoreJIDs.any (fun ig => goContains jid ig)

/-- One decoded inbound chat event, as consumed by `ProcessEvent`
(src/clients.go:217-294): chat and sender identities, push name, the two
text payload variants, and whether the event is within the 2-minute
freshness window (`time.Since(v.Info.Timestamp) <= 2*time.Minute`). -/
structure ChatEvent where
  chatJID : String
  senderJID : String
  pushName : String
  conversation : Option String
  extendedText : Option String
  recent : Bool
  deriving DecidableEq

/-- `ProcessEvent` (src/clients.go:217-294), message case: drop stale
events, drop ignored chats, compute the sender name, extract the text, and
relay non-empty text via `SendToChatwoot`. Media download is disabled in
this revision (the image branch is commented out in the source). -/
def processEvent (w : CwWorld) (cfg : ChatwootConfig) (evt : ChatEvent) :
    List CwRequest :=
  if evt.recent = false then []
  else if shouldIgnoreJID cfg evt.chatJID then []
  else
    let senderName := if evt.pushName = "" then goFirstField evt.senderJID else evt.pushName
    let text :=
      match evt.conversation with
      | some t => t
      | none =>
        match evt.extendedText with
        | some t => t
        | none => ""
    if text ≠ "" then sendToChatwoot w cfg senderName evt.senderJID text else []

/-- In-memory config plus its durable copy (`none` when nothing was ever
persisted). -/
structure ConfigStore where
  mem : ChatwootConfig
  disk : Option ChatwootConfig
  deriving DecidableEq

/-- The two steps `saveConfigToDisk` performs, in order. -/
inductive StoreAction where
  | updateMemory
  | persistToDisk
  deriving DecidableEq

/-- `saveConfigToDisk` (src/chatwoot.go:82-89): replace the in-memory
config under the lock, then attempt the disk write; file errors are
discarded (`file, _ := os.Create(configFile)`), so a failed write
(`diskOk = false`) leaves the old durable copy while the in-memory value
is already replaced. -/
def saveConfigToDisk (st : ConfigStore) (cfg : ChatwootConfig) (diskOk : Bool) :
    ConfigStore × List StoreAction :=
  let st1 : ConfigStore := { st with mem := cfg }
  let st2 : ConfigStore := { st1 with disk := if diskOk then some cfg else st1.disk }
  (st2, [StoreAction.updateMemory, StoreAction.persistToDisk])

/-- `HandleGetChatwootConfig` (src/chatwoot.go:167-178): serialize the
current in-memory config under the read lock — a value snapshot. -/
def getChatwootConfig (st : ConfigStore) : ChatwootConfig :=
  st.mem

/-- The search step found nothing usable: transport error, non-200 status,
or an empty payload (src/chatwoot.go:315-321 falling through to create). -/
def searchMiss (w : CwWorld) : Prop :=
  w.searchResult = HttpResult.err ∨
    ∃ s p, w.searchResult = HttpResult.ok s p ∧ (s ≠ 200 ∨ p = [])

/-- The create step failed: transport error or a status other than 200
(src/chatwoot.go:330-338). -/
def createFails (w : CwWorld) : Prop :=
  w.createResult = HttpResult.err ∨
    ∃ s i, w.createResult = HttpResult.ok s i ∧ s ≠ 200

/-- Whether a request is a conversation post (text or multipart). -/
def isConversationPost : CwRequest → Bool
  | CwRequest.postConversation _ _ _ => true
  | CwRequest.postAttachment _ _ _ _ => true
  | _ => false

/-- A concrete, fully populated configuration used by witnesses. -/
def cfgSample : ChatwootConfig :=
  { enabled := true, url := "https://cw.example", accountID := "1", token := "tok",
    inboxID := "3", signMessages := true, signatureDelimiter := "\\n",
    reopenConversation := false, conversationPending := false,
    inboxName := "WhatsApp", organization := "", logoURL := "",
    importContacts := false, importMessages := false, daysLimit := 7,
    ignoreJIDs := [] }

/-- The sample configuration with signing turned off. -/
def cfgNoSign : ChatwootConfig :=
  { cfgSample with signMessages := false }

/-- The sample configuration with the integration disabled. -/
def cfgDisabled : ChatwootConfig :=
  { cfgSample with enabled := false }

/-- Session state with a registered session and a connected client. -/
def sessAllOk : SessionState :=
  { sessionFound := true, valsOk := true, clientPresent := true, clientConnected := true }

/-- A sample agent-reply webhook payload. -/
def whSample : CwWebhook :=
  { event := "message_created", messageType := "outgoing", content := "Reply",
    senderName := "Ana", contactPhoneNumber := "+5511999998888", contactSourceID := "" }

/-- Once the token is non-empty, every branch of the handler answers 200. -/
lemma webhook_status_200 (cfg : ChatwootConfig) (sess : SessionState)
    (req : WebhookRequest) (ht : req.token ≠ "") :
    (handleChatwootWebhook cfg sess req).status = 200 := by
  unfold handleChatwootWebhook
  rw [if_neg ht]
  cases req.body with
  | none => rfl
  | some p =>
    simp only
    by_cases hf : p.event ≠ "message_created" ∨ p.messageType ≠ "outgoing"
    · rw [if_pos hf]
    · rw [if_neg hf]
      by_cases hs : sess.sessionFound = false
      · rw [if_pos hs]
      · rw [if_neg hs]
        by_cases hc : sess.valsOk = true ∧ sess.clientPresent = true ∧
            sess.clientConnected = true
        · rw [if_pos hc]
          by_cases hl :
              (normalizeRecipient p.contactPhoneNumber p.contactSourceID).length < 8
          · rw [if_pos hl]
          · rw [if_neg hl]
        · rw [if_neg hc]

/-- Claim C2: the webhook endpoint answers 401 exactly when the token query
parameter is absent (empty); with a token present, a malformed body, a
non-matching event or message type, or an unknown session each get 200 with
no chat-transport send. -/
theorem C2_webhook_status (cfg : ChatwootConfig) (sess : SessionState)
    (req : WebhookRequest) :
    ((handleChatwootWebhook cfg sess req).status = 401 ↔ req.token = "") ∧
    (req.token ≠ "" → req.body = none →
      handleChatwootWebhook cfg sess req = ⟨200, []⟩) ∧
    (req.token ≠ "" → ∀ p, req.body = some p →
      (p.event ≠ "message_created" ∨ p.messageType ≠ "outgoing") →
      handleChatwootWebhook cfg sess req = ⟨200, []⟩) ∧
    (req.token ≠ "" → sess.sessionFound = false →
      handleChatwootWebhook cfg sess req = ⟨200, []⟩) := by
  refine ⟨⟨?_, ?_⟩, ?_, ?_, ?_⟩
  · intro h401
    by_contra ht
    have h200 := webhook_status_200 cfg sess req ht
    rw [h401] at h200
    exact absurd h200 (by decide)
  · intro ht
    unfold handleChatwootWebhook
    rw [if_pos ht]
  · intro ht hb
    unfold handleChatwootWebhook
    rw [if_neg ht, hb]
  · intro ht p hb hf
    unfold handleChatwootWebhook
    rw [if_neg ht, hb]
    dsimp only
    rw [if_pos hf]
  · intro ht hs
    unfold handleChatwootWebhook
    rw [if_neg ht]
    cases req.body with
    | none => rfl
    | some p =>
      simp only
      by_cases hf : p.event ≠ "message_created" ∨ p.messageType ≠ "outgoing"
      · rw [if_pos hf]
      · rw [if_neg hf, if_pos hs]

/-- Witness for C2 at concrete requests: an empty token gets 401; a present
token with a malformed body gets 200 and no send. -/
theorem C2_webhook_status_witness :
    (handleChatwootWebhook cfgSample sessAllOk ⟨"", some whSample⟩).status = 401 ∧
    handleChatwootWebhook cfgSample sessAllOk ⟨"tok", none⟩ = ⟨200, []⟩ := by
  refine ⟨?_, ?_⟩
  · exact (C2_webhook_status cfgSample sessAllOk ⟨"", some whSample⟩).1.mpr rfl
  · exact (C2_webhook_status cfgSample sessAllOk ⟨"tok", none⟩).2.1 (by decide) rfl

/-- Claim C3: a payload whose message type is not "outgoing" or whose event
is not "message_created" never triggers a chat-transport send, whatever its
other fields or the session state. -/
theorem C3_filter_blocks_send (cfg : ChatwootConfig) (sess : SessionState)
    (req : WebhookRequest) (p : CwWebhook) (hb : req.body = some p)
    (h : p.messageType ≠ "outgoing" ∨ p.event ≠ "message_created") :
    (handleChatwootWebhook cfg sess req).sends = [] := by
  unfold handleChatwootWebhook
  by_cases ht : req.token = ""
  · rw [if_pos ht]
  · rw [if_neg ht, hb]
    dsimp only
    rw [if_pos (Or.symm h)]

/-- Witness for C3: a concrete "incoming" payload produces no send. -/
theorem C3_filter_blocks_send_witness :
    (handleChatwootWebhook cfgSample sessAllOk
      ⟨"tok", some { whSample with messageType := "incoming" }⟩).sends = [] := by
  exact C3_filter_blocks_send cfgSample sessAllOk _ _ rfl (Or.inl (by decide))

/-- Claim C4: with the integration disabled, or an empty base URL, or an
empty API token, both relay entry points return with an empty request
trace — no HTTP call is made (the Go functions return no error at all). -/
theorem C4_disabled_noop (w : CwWorld) (cfg : ChatwootConfig)
    (pushName senderUser text caption fileName : String)
    (h : cfg.enabled = false ∨ cfg.url = "" ∨ cfg.token = "") :
    sendToChatwoot w cfg pushName senderUser text = [] ∧
    sendAttachmentToChatwoot w cfg pushName senderUser caption fileName = [] := by
  unfold sendToChatwoot sendAttachmentToChatwoot
  rw [if_pos h, if_pos h]
  exact ⟨rfl, rfl⟩

/-- Witness for C4 at a disabled configuration and a concrete world. -/
theorem C4_disabled_noop_witness :
    sendToChatwoot ⟨HttpResult.ok 200 [5], HttpResult.ok 200 7⟩ cfgDisabled
      "Carlos" "5511999998888@s.whatsapp.net" "Oi" = [] ∧
    sendAttachmentToChatwoot ⟨HttpResult.ok 200 [5], HttpResult.ok 200 7⟩ cfgDisabled
      "Carlos" "5511999998888@s.whatsapp.net" "pic" "image.jpg" = [] := by
  exact C4_disabled_noop _ cfgDisabled "Carlos" "5511999998888@s.whatsapp.net"
    "Oi" "pic" "image.jpg" (Or.inl (by decide))

/-- Claim C8: `saveConfigToDisk` updates the in-memory config first and
then attempts persistence; a failed disk write (`diskOk = false`) keeps the
old durable copy while a subsequent read already observes the new value. -/
theorem C8_memory_first (st : ConfigStore) (cfg : ChatwootConfig) (diskOk : Bool) :
    (saveConfigToDisk st cfg diskOk).2 =
      [StoreAction.updateMemory, StoreAction.persistToDisk] ∧
    getChatwootConfig (saveConfigToDisk st cfg diskOk).1 = cfg ∧
    (saveConfigToDisk st cfg false).1.mem = cfg ∧
    (saveConfigToDisk st cfg false).1.disk = st.disk ∧
    (saveConfigToDisk st cfg true).1.disk = some cfg := by
  exact ⟨rfl, rfl, rfl, rfl, rfl⟩

/-- The 36-character UUID-shaped identifier from the claim. -/
def uuidSample : String := "123e4567-e89b-12d3-a456-426614174000"

/-- An agent reply whose conversation contact phone is the UUID. -/
def whUuid : CwWebhook :=
  { event := "message_created", messageType := "outgoing", content := "Reply",
    senderName := "Ana", contactPhoneNumber := uuidSample, contactSourceID := "" }

/-- Claim C1 (code defect, evaluated at the failing input): the handler in
src/chatwoot.go guards the recipient only with `len(phone) < 8`
(src/chatwoot.go:389), so a 36-character UUID-shaped value passes the guard
and a chat-transport send is performed with the UUID as recipient — while
the sibling revision's guard (src/unnamed/part_002:855, `uuidGuardV2`)
rejects exactly this value. -/
theorem C1_uuid_not_rejected :
    uuidSample.length = 36 ∧
    handleChatwootWebhook cfgNoSign sessAllOk ⟨"tok", some whUuid⟩ =
      ⟨200, [(uuidSample, "Reply")]⟩ ∧
    uuidGuardV2 uuidSample = true := by
  refine ⟨rfl, ?_, rfl⟩
  rfl

/-- The sample configuration with signing on and an empty delimiter. -/
def cfgEmptyDelim : ChatwootConfig :=
  { cfgSample with signatureDelimiter := "" }

/-- Claim C7, counterexample: with signing on, sender "Ana", content
"Hello" and an empty configured delimiter, the code composes
"Hello" ++ newline ++ "Ana" — not the content followed by the (unescaped)
configured delimiter followed by the name, because src/chatwoot.go:395
substitutes a newline for an empty delimiter. -/
theorem C7_counterexample :
    signCompose cfgEmptyDelim "Hello" "Ana" = "Hello\nAna" ∧
    signCompose cfgEmptyDelim "Hello" "Ana" ≠
      "Hello" ++ String.mk (unescapeNewlines cfgEmptyDelim.signatureDelimiter.data)
        ++ "Ana" := by
  refine ⟨rfl, ?_⟩
  decide

/-- Claim C7 as amended: with signing on and a non-empty sender name the
composed text is the content, then the delimiter — defaulting to a newline
when the configured delimiter is empty, and with the literal backslash-n
escape interpreted as a newline — then the name; "Hello"/"Ana" with
delimiter backslash-n compose to "Hello" ++ newline ++ "Ana"; with signing
off or an empty name the content is sent unchanged. -/
theorem C7_signature_composition (cfg : ChatwootConfig) (content name : String) :
    (cfg.signMessages = true → name ≠ "" →
      signCompose cfg content name =
        content ++ String.mk (unescapeNewlines
          (if cfg.signatureDelimiter = "" then "\n" else cfg.signatureDelimiter).data)
          ++ name) ∧
    (cfg.signMessages = false ∨ name = "" → signCompose cfg content name = content) ∧
    (cfg.signMessages = true → cfg.signatureDelimiter = "\\n" →
      signCompose cfg "Hello" "Ana" = "Hello\nAna") := by
  refine ⟨?_, ?_, ?_⟩
  · intro hs hn
    unfold signCompose
    rw [if_pos ⟨hs, hn⟩]
  · intro h
    have hneg : ¬(cfg.signMessages = true ∧ name ≠ "") := by
      rcases h with h | h
      · rintro ⟨h1, _⟩
        rw [h] at h1
        exact Bool.false_ne_true h1
      · rintro ⟨_, h2⟩
        exact h2 h
    unfold signCompose
    rw [if_neg hneg]
  · intro hs hd
    unfold signCompose
    rw [if_pos ⟨hs, by decide⟩, hd]
    rfl

/-- Witness for C7 at the concrete inputs of the claim. -/
theorem C7_signature_composition_witness :
    signCompose cfgSample "Hello" "Ana" = "Hello\nAna" ∧
    signCompose cfgNoSign "Hello" "Ana" = "Hello" := by
  exact ⟨(C7_signature_composition cfgSample "Hello" "Ana").2.2 rfl rfl,
         (C7_signature_composition cfgNoSign "Hello" "Ana").2.1 (Or.inl rfl)⟩

/-- On a search miss the function issues the create request and returns the
create step's id. -/
lemma getOrCreate_miss (w : CwWorld) (inboxID : Int) (phone name : String)
    (hm : searchMiss w) :
    getOrCreateContact w inboxID phone name =
      ((match w.createResult with
        | HttpResult.err => 0
        | HttpResult.ok status cid => if status = 200 then cid else 0),
       [CwRequest.search (encodePlus phone),
        CwRequest.createContact inboxID name phone phone]) := by
  unfold getOrCreateContact
  rcases hm with hw | ⟨s, p, hw, hsp⟩
  · rw [hw]
  · rw [hw]
    simp only
    rw [if_neg ?_]
    rintro ⟨h200, hlen⟩
    rcases hsp with h | h
    · exact h h200
    · rw [h] at hlen
      exact absurd hlen (by decide)

/-- Neither the search nor the create request is a conversation post. -/
lemma getOrCreate_trace_no_post (w : CwWorld) (inboxID : Int) (phone name : String) :
    ∀ r ∈ (getOrCreateContact w inboxID phone name).2, isConversationPost r = false := by
  intro r hr
  unfold getOrCreateContact at hr
  cases hsr : w.searchResult with
  | err =>
    rw [hsr] at hr
    simp only at hr
    simp only [List.mem_cons, List.mem_singleton, List.not_mem_nil, or_false] at hr
    rcases hr with rfl | rfl
    · rfl
    · rfl
  | ok s p =>
    rw [hsr] at hr
    simp only at hr
    by_cases hc : s = 200 ∧ p.length > 0
    · rw [if_pos hc] at hr
      simp only [List.mem_singleton] at hr
      subst hr
      rfl
    · rw [if_neg hc] at hr
      simp only [List.mem_cons, List.mem_singleton, List.not_mem_nil, or_false] at hr
      rcases hr with rfl | rfl
      · rfl
      · rfl

/-- Claim C5: contact resolution always issues the search first (its query
is the phone with "+" URL-encoded); a 200 search response with at least one
match returns the first match's id and issues no create request — so a
repeat resolution whose search returns the previously created contact
yields the same id with no duplicate create; any other search outcome
issues exactly one create carrying inbox id, name, phone_number and
source_id both equal to the phone; a failed create yields contact id 0. -/
theorem C5_contact_resolution (w : CwWorld) (inboxID : Int) (phone name : String) :
    (∀ status payload, w.searchResult = HttpResult.ok status payload →
      status = 200 → payload ≠ [] →
      getOrCreateContact w inboxID phone name =
        (payload.headD 0, [CwRequest.search (encodePlus phone)])) ∧
    (searchMiss w →
      (getOrCreateContact w inboxID phone name).2 =
        [CwRequest.search (encodePlus phone),
         CwRequest.createContact inboxID name phone phone]) ∧
    (searchMiss w → createFails w →
      (getOrCreateContact w inboxID phone name).1 = 0) := by
  refine ⟨?_, ?_, ?_⟩
  · intro status payload hw h200 hne
    subst h200
    unfold getOrCreateContact
    rw [hw]
    simp only
    rw [if_pos (show _ ∧ _ from ⟨by trivial, List.length_pos.mpr hne⟩)]
  · intro hm
    rw [getOrCreate_miss w inboxID phone name hm]
  · intro hm hc
    rw [getOrCreate_miss w inboxID phone name hm]
    rcases hc with hw | ⟨s, i, hw, hs⟩
    · rw [hw]
    · rw [hw]
      simp only
      rw [if_neg hs]

/-- Concrete world for the C5 witness: the search answers 200 with an empty
payload, the create answers 422. -/
def worldMiss : CwWorld := ⟨HttpResult.ok 200 [], HttpResult.ok 422 9⟩

/-- Witness for C5: on a search miss with a failed create, the trace is
exactly one search (with the "+" URL-encoded) and one create carrying
`source_id = phone`, and the returned contact id is 0. -/
theorem C5_contact_resolution_witness :
    searchMiss worldMiss ∧
    encodePlus "+5511999998888" = "%2B5511999998888" ∧
    getOrCreateContact worldMiss 3 "+5511999998888" "Carlos" =
      (0, [CwRequest.search (encodePlus "+5511999998888"),
           CwRequest.createContact 3 "Carlos" "+5511999998888" "+5511999998888"]) := by
  have hm : searchMiss worldMiss := Or.inr ⟨200, [], rfl, Or.inr rfl⟩
  have h2 := (C5_contact_resolution worldMiss 3 "+5511999998888" "Carlos").2.1 hm
  have h1 := (C5_contact_resolution worldMiss 3 "+5511999998888" "Carlos").2.2 hm
    (Or.inr ⟨422, 9, rfl, by decide⟩)
  exact ⟨hm, rfl, Prod.ext_iff.mpr ⟨h1, h2⟩⟩

/-- Claim C10: with the search missing, the create path yields a nonzero
contact id only for a create status of exactly 200 — any other status
(201 included) yields 0 — and a zero contact id makes the enclosing relay
abort with no conversation post in its trace. -/
theorem C10_create_status_gate (w : CwWorld) (cfg : ChatwootConfig)
    (inboxID : Int) (phone name pushName senderUser text : String) :
    (searchMiss w → ∀ status cid, w.createResult = HttpResult.ok status cid →
      status ≠ 200 → (getOrCreateContact w inboxID phone name).1 = 0) ∧
    (searchMiss w → (getOrCreateContact w inboxID phone name).1 ≠ 0 →
      ∃ cid, w.createResult = HttpResult.ok 200 cid) ∧
    ((getOrCreateContact w (goAtoi cfg.inboxID) (toCasePhone senderUser) pushName).1 = 0 →
      ∀ r ∈ sendToChatwoot w cfg pushName senderUser text,
        isConversationPost r = false) := by
  refine ⟨?_, ?_, ?_⟩
  · intro hm status cid hw hs
    rw [getOrCreate_miss w inboxID phone name hm, hw]
    simp only
    rw [if_neg hs]
  · intro hm hnz
    rw [getOrCreate_miss w inboxID phone name hm] at hnz
    cases hw : w.createResult with
    | err =>
      rw [hw] at hnz
      exact absurd rfl hnz
    | ok s cid =>
      rw [hw] at hnz
      simp only at hnz
      by_cases hs : s = 200
      · subst hs
        exact ⟨cid, rfl⟩
      · rw [if_neg hs] at hnz
        exact absurd rfl hnz
  · intro h0 r hr
    unfold sendToChatwoot at hr
    by_cases hcfg : cfg.enabled = false ∨ cfg.url = "" ∨ cfg.token = ""
    · rw [if_pos hcfg] at hr
      exact absurd hr (List.not_mem_nil r)
    · rw [if_neg hcfg] at hr
      simp only at hr
      rw [if_pos h0] at hr
      exact getOrCreate_trace_no_post w _ _ _ r hr

/-- Concrete world for the C10 witness: search misses, create answers 201
Created with a decoded id 7. -/
def world201 : CwWorld := ⟨HttpResult.ok 404 [], HttpResult.ok 201 7⟩

/-- Witness for C10: a 201 create response yields contact id 0 and the
enclosing relay trace contains no conversation post. -/
theorem C10_create_status_gate_witness :
    (getOrCreateContact world201 (goAtoi cfgSample.inboxID)
        (toCasePhone "5511999998888@s.whatsapp.net") "Carlos").1 = 0 ∧
    ∀ r ∈ sendToChatwoot world201 cfgSample "Carlos" "5511999998888@s.whatsapp.net" "Oi",
      isConversationPost r = false := by
  have hm : searchMiss world201 := Or.inr ⟨404, [], rfl, Or.inl (by decide)⟩
  have h1 := (C10_create_status_gate world201 cfgSample (goAtoi cfgSample.inboxID)
    (toCasePhone "5511999998888@s.whatsapp.net") "Carlos" "Carlos"
    "5511999998888@s.whatsapp.net" "Oi").1 hm 201 7 rfl (by decide)
  exact ⟨h1, (C10_create_status_gate world201 cfgSample 0 "x" "y" "Carlos"
    "5511999998888@s.whatsapp.net" "Oi").2.2 h1⟩

/-- Claim C9: the ignore check holds exactly when some configured entry is
a substring of the chat identity; an empty-string entry therefore matches
everything and drops every inbound chat event before any relay work. -/
theorem C9_ignore_substring (cfg : ChatwootConfig) (jid : String)
    (w : CwWorld) (evt : ChatEvent) :
    (shouldIgnoreJID cfg jid = true ↔ ∃ ig ∈ cfg.ignoreJIDs, ig.data <:+: jid.data) ∧
    ("" ∈ cfg.ignoreJIDs → processEvent w cfg evt = []) := by
  constructor
  · unfold shouldIgnoreJID goContains
    rw [List.any_eq_true]
    constructor
    · rintro ⟨ig, hig, hd⟩
      exact ⟨ig, hig, of_decide_eq_true hd⟩
    · rintro ⟨ig, hig, hd⟩
      exact ⟨ig, hig, decide_eq_true hd⟩
  · intro hmem
    have hig : shouldIgnoreJID cfg evt.chatJID = true := by
      unfold shouldIgnoreJID goContains
      rw [List.any_eq_true]
      exact ⟨"", hmem,
        decide_eq_true (show ("" : String).data <:+: evt.chatJID.data from List.nil_infix)⟩
    unfold processEvent
    by_cases hr : evt.recent = false
    · rw [if_pos hr]
    · rw [if_neg hr, if_pos hig]

/-- Witness for C9: with the ignore list `[""]` a concrete fresh text event
is dropped before any case-system request. -/
theorem C9_ignore_substring_witness :
    ("" ∈ ([""] : List String)) ∧
    processEvent worldMiss { cfgSample with ignoreJIDs := [""] }
      ⟨"5511999998888@s.whatsapp.net", "5511999998888@s.whatsapp.net",
        "Carlos", some "Oi", none, true⟩ = [] := by
  refine ⟨List.mem_singleton.mpr rfl, ?_⟩
  exact (C9_ignore_substring { cfgSample with ignoreJIDs := [""] } "x" worldMiss
    ⟨"5511999998888@s.whatsapp.net", "5511999998888@s.whatsapp.net",
      "Carlos", some "Oi", none, true⟩).2 (List.mem_singleton.mpr rfl)

/-- A digit character differs (as `!=`) from any non-digit character. -/
lemma digit_bne {c x : Char} (h : c.isDigit = true) (hx : x.isDigit = false) :
    (c != x) = true := by
  rw [bne_iff_ne]
  intro e
  rw [e] at h
  rw [h] at hx
  exact absurd hx (by decide)

/-- A digit character is not whitespace. -/
lemma digit_not_ws {c : Char} (h : c.isDigit = true) : c.isWhitespace = false := by
  by_cases hb : c.isWhitespace = true
  · exfalso
    simp [Char.isWhitespace] at hb
    rcases hb with ((h1 | h1) | h1) | h1 <;> subst h1 <;> exact absurd h (by decide)
  · exact Bool.eq_false_iff.mpr hb

/-- `takeWhile` keeps a list all of whose elements satisfy the predicate. -/
lemma takeWhile_all_true {p : Char → Bool} {l : List Char}
    (h : ∀ c ∈ l, p c = true) : l.takeWhile p = l := by
  induction l with
  | nil => rfl
  | cons c rest ih =>
    rw [List.takeWhile_cons, h c (List.mem_cons_self c rest)]
    rw [if_pos rfl, ih (fun x hx => h x (List.mem_cons_of_mem c hx))]

/-- `dropWhile` keeps a list none of whose elements satisfy the predicate. -/
lemma dropWhile_none_true {p : Char → Bool} {l : List Char}
    (h : ∀ c ∈ l, p c = false) : l.dropWhile p = l := by
  cases l with
  | nil => rfl
  | cons c rest =>
    rw [List.dropWhile_cons, h c (List.mem_cons_self c rest)]
    simp only [Bool.false_eq_true, if_false]

/-- Removing a character that occurs nowhere in the string is the identity. -/
lemma goStripChar_id {x : Char} {s : String} (h : ∀ c ∈ s.data, (c != x) = true) :
    goStripChar x s = s := by
  unfold goStripChar
  rw [List.filter_eq_self.mpr h]

/-- Trimming a string with no whitespace anywhere is the identity. -/
lemma goTrimSpace_id {s : String} (h : ∀ c ∈ s.data, c.isWhitespace = false) :
    goTrimSpace s = s := by
  unfold goTrimSpace
  rw [dropWhile_none_true h,
      dropWhile_none_true (fun c hc => h c (List.mem_reverse.mp hc)),
      List.reverse_reverse]

/-- Stripping "+" ignores a leading "+". -/
lemma stripPlus_leading (s : String) :
    goStripChar '+' ("+" ++ s) = goStripChar '+' s := by
  unfold goStripChar
  rw [String.data_append]
  rfl

/-- A nonempty prefixed string is not empty. -/
lemma plus_append_ne_empty (d : String) : ("+" ++ d) ≠ "" := by
  intro e
  have h0 : ('+' :: d.data) = ("" : String).data := by
    rw [show ('+' :: d.data) = ("+" ++ d).data from by rw [String.data_append]; rfl, e]
  exact List.cons_ne_nil _ _ h0

/-- `toCasePhone` on a digit string with the transport suffix appended
yields "+" followed by the digits. -/
lemma toCasePhone_digits (d : String) (hd : ∀ c ∈ d.data, c.isDigit = true) :
    toCasePhone (d ++ "@s.whatsapp.net") = "+" ++ d := by
  have hplus : ∀ c ∈ d.data, (c != '+') = true :=
    fun c hc => digit_bne (hd c hc) (by decide)
  have hat : ∀ c ∈ d.data, (c != '@') = true :=
    fun c hc => digit_bne (hd c hc) (by decide)
  unfold toCasePhone goStripChar goFirstField
  refine congrArg (fun t => "+" ++ t) ?_
  rw [String.data_append, List.filter_append, List.filter_eq_self.mpr hplus]
  rw [show List.filter (fun x => x != '+') "@s.whatsapp.net".data =
      '@' :: "s.whatsapp.net".data from rfl]
  rw [List.takeWhile_append, takeWhile_all_true hat, if_pos rfl]
  rw [show List.takeWhile (fun x => x != '@') ('@' :: "s.whatsapp.net".data) =
      ([] : List Char) from rfl]
  rw [List.append_nil]

/-- `toCasePhone` ignores a leading "+" on its input. -/
lemma toCasePhone_plus (s : String) : toCasePhone ("+" ++ s) = toCasePhone s := by
  unfold toCasePhone
  rw [stripPlus_leading]

/-- `normalizeRecipient` on "+" followed by digits recovers the digits. -/
lemma normalizeRecipient_plus_digits (d : String)
    (hd : ∀ c ∈ d.data, c.isDigit = true) :
    normalizeRecipient ("+" ++ d) "" = d := by
  have hplus : ∀ c ∈ d.data, (c != '+') = true :=
    fun c hc => digit_bne (hd c hc) (by decide)
  have hspace : ∀ c ∈ d.data, (c != ' ') = true :=
    fun c hc => digit_bne (hd c hc) (by decide)
  have hws : ∀ c ∈ d.data, c.isWhitespace = false :=
    fun c hc => digit_not_ws (hd c hc)
  unfold normalizeRecipient
  rw [if_neg (plus_append_ne_empty d), stripPlus_leading, goStripChar_id hplus,
      goStripChar_id hspace, goTrimSpace_id hws]

/-- Claim C6: for a bare digit string `d` of length at least 8, normalizing
the chat identity built from `d` yields exactly "+" ++ `d`, with no double
"+" when the identity already carries a leading "+"; and normalizing
"+" ++ `d` back for delivery is accepted by the length guard and produces a
chat identity containing `d`. -/
theorem C6_normalization_round_trip (d : String)
    (hd : ∀ c ∈ d.data, c.isDigit = true) (hlen : 8 ≤ d.length) :
    toCasePhone (d ++ "@s.whatsapp.net") = "+" ++ d ∧
    toCasePhone ("+" ++ (d ++ "@s.whatsapp.net")) = "+" ++ d ∧
    normalizeRecipient ("+" ++ d) "" = d ∧
    ¬ (normalizeRecipient ("+" ++ d) "").length < 8 ∧
    d.data <:+: (parseJID (normalizeRecipient ("+" ++ d) "")).data := by
  have hnoat : goContains d "@" = false := by
    unfold goContains
    apply decide_eq_false
    intro hinf
    have hmem : '@' ∈ d.data := hinf.subset (by simp)
    exact absurd (hd '@' hmem) (by decide)
  refine ⟨toCasePhone_digits d hd, ?_, normalizeRecipient_plus_digits d hd, ?_, ?_⟩
  · exact (toCasePhone_plus (d ++ "@s.whatsapp.net")).trans (toCasePhone_digits d hd)
  · rw [normalizeRecipient_plus_digits d hd]
    omega
  · rw [normalizeRecipient_plus_digits d hd]
    unfold parseJID
    rw [if_neg (by rw [hnoat]; exact Bool.false_ne_true)]
    rw [String.data_append]
    exact ⟨[], "@s.whatsapp.net".data, by simp⟩

/-- Witness for C6 at the digit string of the spec's scenarios. -/
theorem C6_normalization_round_trip_witness :
    toCasePhone ("5511999998888" ++ "@s.whatsapp.net") = "+" ++ "5511999998888" ∧
    toCasePhone ("+" ++ ("5511999998888" ++ "@s.whatsapp.net")) = "+" ++ "5511999998888" ∧
    normalizeRecipient ("+" ++ "5511999998888") "" = "5511999998888" := by
  have h := C6_normalization_round_trip "5511999998888" (by decide) (by decide)
  exact ⟨h.1, h.2.1, h.2.2.1⟩
